import Mathlib

/-!
Shallow embedding of two files of the repository:

* `src/linter/check_package_name.py` — a pylint checker (`class PackageName`)
  that visits class definitions and reports naming-convention diagnostics.
  The checker is side-effect free apart from calling `self.add_message` at
  most once per visit; we embed `visit_classdef` as a pure function from the
  visited class-definition node to `Option Message` (the at-most-one emitted
  diagnostic).  The astroid syntax nodes are embedded by the fields the
  checker reads: a class definition exposes its file path components
  (`Path(node.root().file)`), its `basenames`, its `body` statements and its
  line number; a body statement exposes `get_children()` and `lineno`;
  a child node is an `AssignName` (with its `.name`), a `Const` (with its
  `.as_string()` rendering) or anything else.

* `src/recipes/tk/all/conanfile.py` — the `TkConan` recipe.  Its `build` and
  `package` lifecycle hooks are embedded as straight-line action traces
  (attribute lookups on `self`, file rewrites, build-tool invocations)
  executed against the set of names actually defined by the class, with
  Python attribute-lookup failure (`AttributeError`) modelled explicitly.
-/

namespace CheckPackageName

/-- A child node of a body statement, as the checker discriminates them
(`isinstance(children[0], AssignName)`, `isinstance(children[1], Const)`):
an assignment-target name node carrying its `.name`, a literal-constant node
carrying its `.as_string()` source-text rendering, or any other node kind. -/
inductive Child where
  | assignName (name : String)
  | const (as_string : String)
  | other
  deriving DecidableEq, Repr

/-- A body statement: its `get_children()` list in order, and its `lineno`. -/
structure Stmt where
  children : List Child
  lineno : Nat
  deriving DecidableEq, Repr

/-- The visited class-definition node: the path components of
`Path(node.root().file)`, the declared `basenames`, the ordered `body`
statements, and the node's own line number (used by `add_message` when no
explicit line is passed). -/
structure ClassDef where
  file_parts : List String
  basenames : List String
  body : List Stmt
  lineno : Nat
  deriving DecidableEq, Repr

/-- The three message ids registered by the checker:
`conan-bad-name` (E9004), `conan-missing-name` (E9005),
`conan-test-no-name` (E9007). -/
inductive MsgId where
  | conan_bad_name
  | conan_missing_name
  | conan_test_no_name
  deriving DecidableEq, Repr

/-- Which syntax node a diagnostic is attached to: the class-definition node
itself, or one of its body statements. -/
inductive NodeRef where
  | classNode
  | stmtNode (s : Stmt)
  deriving DecidableEq, Repr

/-- One emitted diagnostic: message id, associated node, line number. -/
structure Message where
  msgid : MsgId
  node : NodeRef
  line : Nat
  deriving DecidableEq, Repr

/-- fnmatch of a path component against the pattern `*.py`: `*` matches any
(possibly empty) character sequence within the component, so the component
matches exactly when its last three characters are `.py`. -/
def matchStarPy (fileName : String) : Bool :=
  match fileName.data.reverse with
  | c1 :: c2 :: c3 :: _ => c3 == '.' && c2 == 'p' && c1 == 'y'
  | _ => false

/-- `PurePath.match` against the relative pattern `dir ++ "/*.py"`:
the path's last component must fnmatch `*.py` and the second-to-last
component must equal `dir` exactly; a relative pattern is matched against
the right end of the path, so any leading components are ignored, and a
path with fewer than two components never matches. -/
def pathMatchDirPy (dir : String) (parts : List String) : Bool :=
  match parts.reverse with
  | fileName :: d :: _ => d == dir && matchStarPy fileName
  | _ => false

/-- Line 34-35: `is_test = filename.match('test_package/*.py') or
filename.match('test_v1_package/*.py')`. -/
def is_test (parts : List String) : Bool :=
  pathMatchDirPy "test_package" parts || pathMatchDirPy "test_v1_package" parts

/-- Lines 39-43: a body statement qualifies when its children are exactly
`[AssignName, Const]` with the target name `"name"`; the returned value is
the `Const` child's `as_string()` rendering. -/
def qualifies (attr : Stmt) : Option String :=
  match attr.children with
  | [Child.assignName n, Child.const v] => if n == "name" then some v else none
  | _ => none

/-- The `for attr in node.body` loop's search: the first qualifying
statement (with its rendered value), scanning the body in source order. -/
def firstQualifying : List Stmt → Option (Stmt × String)
  | [] => none
  | attr :: rest =>
    match qualifies attr with
    | some v => some (attr, v)
    | none => firstQualifying rest

/-- `PackageName.visit_classdef` (lines 33-52), as a pure function returning
the at-most-one diagnostic emitted via `add_message`.  The Python method
returns `None` and never mutates the tree; both facts are captured by this
embedding being a pure function of the node that returns only the emitted
message. -/
def visit_classdef (node : ClassDef) : Option Message :=
  let is_t := is_test node.file_parts
  if node.basenames == ["ConanFile"] then
    match firstQualifying node.body with
    | some (attr, value) =>
      if is_t then
        some { msgid := MsgId.conan_test_no_name, node := NodeRef.stmtNode attr,
               line := attr.lineno }
      else if value.toLower != value then
        some { msgid := MsgId.conan_bad_name, node := NodeRef.stmtNode attr,
               line := attr.lineno }
      else
        none
    | none =>
      if !is_t then
        some { msgid := MsgId.conan_missing_name, node := NodeRef.classNode,
               line := node.lineno }
      else
        none
  else
    none

/-- Outcome "correctly named": non-test file, a first qualifying `name`
assignment exists and its rendered value is lowercase-invariant. -/
def correctlyNamed (node : ClassDef) : Prop :=
  is_test node.file_parts = false ∧
    ∃ attr v, firstQualifying node.body = some (attr, v) ∧ v.toLower = v

/-- Outcome "badly cased": non-test file, a first qualifying `name`
assignment exists and its rendered value is not lowercase-invariant. -/
def badlyCased (node : ClassDef) : Prop :=
  is_test node.file_parts = false ∧
    ∃ attr v, firstQualifying node.body = some (attr, v) ∧ v.toLower ≠ v

/-- Outcome "missing attribute": non-test file, no qualifying `name`
assignment anywhere in the body. -/
def missingAttribute (node : ClassDef) : Prop :=
  is_test node.file_parts = false ∧ firstQualifying node.body = none

/-- Outcome "test-package exempt": the file path matches one of the two
test-package patterns (the case check is skipped entirely there). -/
def testExempt (node : ClassDef) : Prop :=
  is_test node.file_parts = true

/-- Follows the claim C6 wording, for comparison with `is_test`: "true if
and only if the node's source file path matches either of the two fixed
directory-name patterns `test_package/*` or `test_v1_package/*` ... for
every file path whose final directory component is test_package or
test_v1_package, is_test is true regardless of the file name".  This is the
spec-stated predicate, NOT the code's: the code's patterns end in `*.py`. -/
def is_test_claimed (parts : List String) : Bool :=
  match parts.reverse with
  | _ :: d :: _ => d == "test_package" || d == "test_v1_package"
  | _ => false

/-- A non-qualifying body statement (a single non-assignment child). -/
def exOther : Stmt := { children := [Child.other], lineno := 7 }

/-- `name = "foo"` rendered: a qualifying assignment, lowercase value. -/
def exNameFoo : Stmt :=
  { children := [Child.assignName "name", Child.const "foo"], lineno := 8 }

/-- `name = BAR`-style qualifying assignment with non-lowercase rendering. -/
def exNameBar : Stmt :=
  { children := [Child.assignName "name", Child.const "BAR"], lineno := 9 }

/-- Qualifying assignment whose rendered value `FooBar` is badly cased. -/
def exBadStmt : Stmt :=
  { children := [Child.assignName "name", Child.const "FooBar"], lineno := 7 }

/-- A malformed statement: only one child, so it can never qualify. -/
def exMalformed : Stmt :=
  { children := [Child.assignName "name"], lineno := 3 }

/-- Non-test `ConanFile` class with an empty body (missing `name`). -/
def exMissing : ClassDef :=
  { file_parts := ["recipes", "foo", "all", "conanfile.py"],
    basenames := ["ConanFile"], body := [], lineno := 5 }

/-- Non-test `ConanFile` class whose body assigns `name` a badly cased
value. -/
def exBad : ClassDef :=
  { file_parts := ["recipes", "foo", "all", "conanfile.py"],
    basenames := ["ConanFile"], body := [exBadStmt], lineno := 6 }

/-- A test-package `ConanFile` class that assigns `name`. -/
def exTest : ClassDef :=
  { file_parts := ["recipes", "foo", "all", "test_package", "conanfile.py"],
    basenames := ["ConanFile"], body := [exNameFoo], lineno := 4 }

/-- Non-test `ConanFile` class whose body is a non-qualifying statement,
then a qualifying one, then another qualifying one (for the scan order). -/
def exScan : ClassDef :=
  { file_parts := ["recipes", "foo", "all", "conanfile.py"],
    basenames := ["ConanFile"], body := [exOther, exNameBar, exNameFoo],
    lineno := 2 }

/-- A class with two base types, `(ConanFile, Other)`. -/
def exTwoBases : ClassDef :=
  { file_parts := ["recipes", "foo", "all", "conanfile.py"],
    basenames := ["ConanFile", "Other"], body := [exNameBar], lineno := 1 }

end CheckPackageName

namespace TkRecipe

/-- Observable effects performed by the `TkConan` lifecycle hooks:
`apply_conandata_patches`, `replace_in_file` rewrites (named by the file
being rewritten), build-tool invocations (`nmake`, `configure`, `make`),
`self.copy` and `rmdir`. -/
inductive TkEvent where
  | applyConandataPatches
  | replaceInFile (target : String)
  | runCommand (cmd : String)
  | copyFiles (pattern : String)
  | rmdirDir (d : String)
  deriving DecidableEq, Repr

/-- One step of a straight-line trace of a recipe method: either an
observable effect, or a Python attribute lookup `self.n` (which raises
`AttributeError` when `n` is defined neither on the class nor by the
framework base class). -/
inductive TkAction where
  | event (e : TkEvent)
  | lookup (n : String)
  deriving DecidableEq, Repr

/-- Every attribute and method name defined in `class TkConan` in
`src/recipes/tk/all/conanfile.py` (class attributes lines 16-31, properties
and methods lines 33-254). -/
def TkConan_definedNames : List String :=
  ["name", "description", "license", "url", "homepage", "topics",
   "package_type", "settings", "options", "default_options",
   "_settings_build", "export_sources", "config_options", "configure",
   "layout", "requirements", "build_requirements", "validate", "source",
   "generate", "_get_default_build_system_subdir", "_get_configure_dir",
   "_patch_sources", "_build_nmake", "_get_autotools_args", "build",
   "package", "package_info"]

/-- Modelled from the spec: the package-manager framework's base class and
its lifecycle/toolchain API are an external collaborator, out of scope
(spec section 1), consumed as an opaque interface.  We model it as providing
every framework-level attribute the recipe uses (`run`, `output`,
`settings`, `copy`, the folder and dependency-info accessors, ...) and no
recipe-private helper: names such as `_get_configure_folder` and
`_source_subfolder` are recipe-local conventions, not framework API, so a
lookup of one of them succeeds only if `TkConan` itself defines it. -/
def frameworkProvided : List String :=
  ["run", "output", "settings", "settings_build", "options", "conf",
   "conan_data", "version", "deps_cpp_info", "deps_env_info", "env_info",
   "runenv_info", "cpp_info", "folders", "source_folder", "build_folder",
   "package_folder", "copy", "requires", "tool_requires", "win_bash"]

/-- The names a `self.n` attribute lookup can resolve: those defined on
`TkConan` plus those provided by the framework base class. -/
def knownNames : List String :=
  TkConan_definedNames ++ frameworkProvided

/-- Execute a straight-line action trace: effects accumulate in order;
the first lookup of an unresolvable name raises `AttributeError`, discarding
the rest of the trace (Python exception propagation). The result is the
list of effects performed before completion or failure, and the error
message if one was raised. -/
def execActions (known : List String) : List TkAction → List TkEvent × Option String
  | [] => ([], none)
  | TkAction.event e :: rest =>
    let r := execActions known rest
    (e :: r.1, r.2)
  | TkAction.lookup n :: rest =>
    if known.contains n then execActions known rest
    else ([], some ("AttributeError: " ++ n))

/-- Body of the `for build_system in ("unix", "win")` loop of
`_patch_sources` (lines 126-140): look up `self._get_configure_folder`,
then (for non-`win`) rewrite `configure`, then rewrite `Makefile.in`
twice. -/
def loopBodyActions (build_system : String) : List TkAction :=
  [TkAction.lookup "_get_configure_folder"] ++
  (if build_system != "win"
    then [TkAction.event (TkEvent.replaceInFile "configure")] else []) ++
  [TkAction.event (TkEvent.replaceInFile "Makefile.in"),
   TkAction.event (TkEvent.replaceInFile "Makefile.in")]

/-- `TkConan._patch_sources` (lines 123-169) as an action trace:
`apply_conandata_patches`, the two loop iterations, then the
`rules-ext.vc` / `rules.vc` / `Makefile.in` rewrites, whose path
computations look up `self.source_folder`, `self._source_subfolder` and
`self._get_configure_folder` in source order. -/
def patch_sources_actions : List TkAction :=
  [TkAction.event TkEvent.applyConandataPatches] ++
  loopBodyActions "unix" ++ loopBodyActions "win" ++
  [TkAction.lookup "source_folder", TkAction.lookup "_source_subfolder",
   TkAction.event (TkEvent.replaceInFile "rules-ext.vc"),
   TkAction.lookup "source_folder", TkAction.lookup "_source_subfolder",
   TkAction.event (TkEvent.replaceInFile "rules.vc"),
   TkAction.event (TkEvent.replaceInFile "rules.vc"),
   TkAction.event (TkEvent.replaceInFile "rules.vc"),
   TkAction.lookup "_get_configure_folder",
   TkAction.event (TkEvent.replaceInFile "Makefile.in"),
   TkAction.lookup "_source_subfolder",
   TkAction.event (TkEvent.replaceInFile "rules.vc"),
   TkAction.event (TkEvent.replaceInFile "rules.vc")]

/-- `TkConan._build_nmake` (lines 171-211) as an action trace (attribute
lookups of the option/setting/dependency accessors it reads, in source
order, with framework-helper internals elided), ending in the `nmake`
invocation; note that the `self.run(...)` call site itself evaluates
`self._get_configure_dir("win")` and `cwd=self._get_configure_folder("win")`
before running `nmake`. -/
def build_nmake_actions (target : String) : List TkAction :=
  [TkAction.lookup "options", TkAction.lookup "settings",
   TkAction.lookup "deps_cpp_info", TkAction.lookup "version",
   TkAction.lookup "deps_cpp_info",
   TkAction.lookup "_get_configure_dir", TkAction.lookup "package_folder",
   TkAction.lookup "deps_env_info",
   TkAction.lookup "_get_configure_folder",
   TkAction.event (TkEvent.runCommand ("nmake " ++ target))]

/-- A build configuration: the settings `build` branches on.  The failure
shown below is configuration-independent. -/
structure TkConfig where
  os : String
  compiler : String
  build_type : String
  shared : Bool

/-- `TkConan.build` (lines 217-224): call `self._patch_sources()`, then
branch on `self.settings.compiler == "Visual Studio"` into the `nmake`
path or the Autotools `configure`/`make` path. -/
def build_actions (cfg : TkConfig) : List TkAction :=
  [TkAction.lookup "_patch_sources"] ++ patch_sources_actions ++
  [TkAction.lookup "settings"] ++
  (if cfg.compiler == "Visual Studio" then
    [TkAction.lookup "_build_nmake"] ++ build_nmake_actions "release"
  else
    [TkAction.lookup "_get_configure_dir",
     TkAction.event (TkEvent.runCommand "configure"),
     TkAction.lookup "_get_autotools_args",
     TkAction.event (TkEvent.runCommand "make")])

/-- `TkConan.package` (lines 226-252): `self.copy(pattern="license.terms",
src=self._source_subfolder, dst="licenses")` first (the callable `self.copy`
is looked up, then its `src` argument evaluates `self._source_subfolder`),
then the compiler branch (`nmake install` or `make install` plus directory
cleanup), then the `tkConfig.sh` rewrite block. -/
def package_actions (cfg : TkConfig) : List TkAction :=
  [TkAction.lookup "copy", TkAction.lookup "_source_subfolder",
   TkAction.event (TkEvent.copyFiles "license.terms"),
   TkAction.lookup "settings"] ++
  (if cfg.compiler == "Visual Studio" then
    [TkAction.lookup "_build_nmake"] ++ build_nmake_actions "install"
  else
    [TkAction.lookup "_get_autotools_args",
     TkAction.event (TkEvent.runCommand "make install"),
     TkAction.lookup "_get_autotools_args",
     TkAction.event (TkEvent.runCommand "make install-private-headers"),
     TkAction.lookup "package_folder",
     TkAction.event (TkEvent.rmdirDir "lib/pkgconfig"),
     TkAction.lookup "package_folder",
     TkAction.event (TkEvent.rmdirDir "man"),
     TkAction.lookup "package_folder",
     TkAction.event (TkEvent.rmdirDir "share")]) ++
  [TkAction.lookup "package_folder",
   TkAction.event (TkEvent.replaceInFile "tkConfig.sh")]

/-- Running `build()`: execute its trace against the resolvable names. -/
def build_run (cfg : TkConfig) : List TkEvent × Option String :=
  execActions knownNames (build_actions cfg)

/-- Running `package()`: execute its trace against the resolvable names. -/
def package_run (cfg : TkConfig) : List TkEvent × Option String :=
  execActions knownNames (package_actions cfg)

end TkRecipe

namespace CheckPackageName

/-- Helper: a prefix of non-qualifying statements does not affect the
search for the first qualifying assignment. -/
theorem firstQualifying_append_of_none {pre : List Stmt} (l : List Stmt)
    (hpre : ∀ s ∈ pre, qualifies s = none) :
    firstQualifying (pre ++ l) = firstQualifying l := by
  induction pre with
  | nil => rfl
  | cons a as ih =>
    have ha : qualifies a = none := hpre a (List.mem_cons_self a as)
    simp only [List.cons_append, firstQualifying, ha]
    exact ih (fun s hs => hpre s (List.mem_cons_of_mem a hs))

/-- Helper: the visit result depends on the body only through the first
qualifying assignment it contains. -/
theorem visit_classdef_congr (node : ClassDef) (b : List Stmt)
    (h : firstQualifying b = firstQualifying node.body) :
    visit_classdef { node with body := b } = visit_classdef node := by
  simp only [visit_classdef, h]

/-- Helper: a statement qualifies with value `v` exactly when its children
are the two-node shape `[AssignName "name", Const v]`. -/
theorem qualifies_eq_some {attr : Stmt} {v : String}
    (h : qualifies attr = some v) :
    attr.children = [Child.assignName "name", Child.const v] := by
  unfold qualifies at h
  split at h
  next n w heq =>
    split at h
    next hn =>
      rw [Option.some.injEq] at h
      rw [heq, eq_of_beq hn, h]
    next => exact absurd h (by simp)
  next => exact absurd h (by simp)

/-- Claim C2: for a `ConanFile`-based class in a non-test path whose first
qualifying assignment renders as `value`, the checker emits exactly the one
`conan-bad-name` diagnostic at that assignment's line if and only if the
lowercase form of the rendered source text differs from the original
rendering; a lowercase-invariant rendering yields no diagnostic.  The
comparison is on the `Const` child's `as_string()` rendering, which is how
non-string constants are compared as well. -/
theorem c2_bad_name_iff_rendering_not_lowercase (node : ClassDef)
    (attr : Stmt) (value : String)
    (hb : node.basenames = ["ConanFile"])
    (ht : is_test node.file_parts = false)
    (hf : firstQualifying node.body = some (attr, value)) :
    visit_classdef node =
      if value.toLower ≠ value then
        some { msgid := MsgId.conan_bad_name, node := NodeRef.stmtNode attr,
               line := attr.lineno }
      else none := by
  simp only [visit_classdef, hb, ht, hf, beq_self_eq_true, if_true,
    Bool.false_eq_true, if_false]
  by_cases hv : value.toLower = value
  · simp [hv, bne_iff_ne]
  · simp [hv, bne_iff_ne]

/-- Witness for C2 at a concrete badly cased recipe class. -/
theorem c2_witness :
    exBad.basenames = ["ConanFile"] ∧
    is_test exBad.file_parts = false ∧
    firstQualifying exBad.body = some (exBadStmt, "FooBar") ∧
    visit_classdef exBad =
      (if "FooBar".toLower ≠ "FooBar" then
        some { msgid := MsgId.conan_bad_name, node := NodeRef.stmtNode exBadStmt,
               line := exBadStmt.lineno }
      else none) :=
  ⟨rfl, by decide, rfl,
    c2_bad_name_iff_rendering_not_lowercase exBad exBadStmt "FooBar" rfl
      (by decide) rfl⟩

/-- Claim C3: for a `ConanFile`-based class in a non-test path with no
qualifying assignment anywhere in the body, the checker emits exactly one
`conan-missing-name` diagnostic attached to the class node itself, at the
class node's own line. -/
theorem c3_missing_name (node : ClassDef)
    (hb : node.basenames = ["ConanFile"])
    (ht : is_test node.file_parts = false)
    (hf : firstQualifying node.body = none) :
    visit_classdef node =
      some { msgid := MsgId.conan_missing_name, node := NodeRef.classNode,
             line := node.lineno } := by
  simp [visit_classdef, hb, ht, hf]

/-- Witness for C3 at a concrete recipe class with an empty body. -/
theorem c3_witness :
    exMissing.basenames = ["ConanFile"] ∧
    is_test exMissing.file_parts = false ∧
    firstQualifying exMissing.body = none ∧
    visit_classdef exMissing =
      some { msgid := MsgId.conan_missing_name, node := NodeRef.classNode,
             line := exMissing.lineno } :=
  ⟨rfl, by decide, rfl, c3_missing_name exMissing rfl (by decide) rfl⟩

/-- Claim C5: a visited class whose base-type list is not exactly
`["ConanFile"]` produces no diagnostic, whatever the body and path. -/
theorem c5_other_bases_skipped (node : ClassDef)
    (hb : node.basenames ≠ ["ConanFile"]) :
    visit_classdef node = none := by
  simp [visit_classdef, hb]

/-- Witness for C5 at a concrete class with two base types. -/
theorem c5_witness :
    exTwoBases.basenames ≠ ["ConanFile"] ∧
    visit_classdef exTwoBases = none :=
  ⟨by decide, c5_other_bases_skipped exTwoBases (by decide)⟩

/-- Claim C1: for every visited class whose base-type list is exactly
`["ConanFile"]`, exactly one of the four outcomes {correctly named, badly
cased, missing attribute, test-package exempt} holds (mutual exclusion and
exhaustiveness), and the checker emits at most one diagnostic per visit.
The Python method also returns `None` and never mutates the tree: in this
embedding `visit_classdef` is a pure function of the node whose only output
is the optional diagnostic, so both facts hold by construction. -/
theorem c1_exactly_one_outcome (node : ClassDef)
    (_h : node.basenames = ["ConanFile"]) :
    ((correctlyNamed node ∧ ¬badlyCased node ∧ ¬missingAttribute node ∧
        ¬testExempt node) ∨
     (¬correctlyNamed node ∧ badlyCased node ∧ ¬missingAttribute node ∧
        ¬testExempt node) ∨
     (¬correctlyNamed node ∧ ¬badlyCased node ∧ missingAttribute node ∧
        ¬testExempt node) ∨
     (¬correctlyNamed node ∧ ¬badlyCased node ∧ ¬missingAttribute node ∧
        testExempt node)) ∧
    (visit_classdef node).toList.length ≤ 1 := by
  constructor
  · by_cases ht : is_test node.file_parts = true
    · refine Or.inr (Or.inr (Or.inr ⟨?_, ?_, ?_, ht⟩)) <;>
        simp [correctlyNamed, badlyCased, missingAttribute, ht]
    · have ht' : is_test node.file_parts = false := by
        revert ht; cases is_test node.file_parts <;> simp
      cases hq : firstQualifying node.body with
      | none =>
        refine Or.inr (Or.inr (Or.inl ⟨?_, ?_, ⟨ht', hq⟩, ?_⟩))
        · rintro ⟨-, s, v, hsv, -⟩
          rw [hq] at hsv
          exact Option.noConfusion hsv
        · rintro ⟨-, s, v, hsv, -⟩
          rw [hq] at hsv
          exact Option.noConfusion hsv
        · simp [testExempt, ht']
      | some p =>
        obtain ⟨s, v⟩ := p
        by_cases hv : v.toLower = v
        · refine Or.inl ⟨⟨ht', s, v, hq, hv⟩, ?_, ?_, ?_⟩
          · rintro ⟨-, t, w, htw, hne⟩
            rw [hq] at htw
            rw [Option.some.injEq, Prod.mk.injEq] at htw
            exact hne (htw.2 ▸ hv)
          · rintro ⟨-, hnone⟩
            rw [hq] at hnone
            exact Option.noConfusion hnone
          · simp [testExempt, ht']
        · refine Or.inr (Or.inl ⟨?_, ⟨ht', s, v, hq, hv⟩, ?_, ?_⟩)
          · rintro ⟨-, t, w, htw, heq⟩
            rw [hq] at htw
            rw [Option.some.injEq, Prod.mk.injEq] at htw
            exact hv (htw.2 ▸ heq)
          · rintro ⟨-, hnone⟩
            rw [hq] at hnone
            exact Option.noConfusion hnone
          · simp [testExempt, ht']
  · cases visit_classdef node <;> simp

/-- Witness for C1 at a concrete recipe class (missing-attribute case). -/
theorem c1_witness :
    exMissing.basenames = ["ConanFile"] ∧
    (((correctlyNamed exMissing ∧ ¬badlyCased exMissing ∧
        ¬missingAttribute exMissing ∧ ¬testExempt exMissing) ∨
      (¬correctlyNamed exMissing ∧ badlyCased exMissing ∧
        ¬missingAttribute exMissing ∧ ¬testExempt exMissing) ∨
      (¬correctlyNamed exMissing ∧ ¬badlyCased exMissing ∧
        missingAttribute exMissing ∧ ¬testExempt exMissing) ∨
      (¬correctlyNamed exMissing ∧ ¬badlyCased exMissing ∧
        ¬missingAttribute exMissing ∧ testExempt exMissing)) ∧
     (visit_classdef exMissing).toList.length ≤ 1) :=
  ⟨rfl, c1_exactly_one_outcome exMissing rfl⟩

/-- Claim C4: for a `ConanFile`-based class in a test path, a qualifying
assignment (whatever its rendered value — the case check is skipped
entirely) produces exactly one `conan-test-no-name` diagnostic at the
assignment statement, and the scan stops there; with no qualifying
assignment, nothing is emitted. -/
theorem c4_test_package (node : ClassDef)
    (hb : node.basenames = ["ConanFile"])
    (ht : is_test node.file_parts = true) :
    (∀ attr value, firstQualifying node.body = some (attr, value) →
      visit_classdef node =
        some { msgid := MsgId.conan_test_no_name, node := NodeRef.stmtNode attr,
               line := attr.lineno }) ∧
    (firstQualifying node.body = none → visit_classdef node = none) := by
  constructor
  · intro attr value hf
    simp [visit_classdef, hb, ht, hf]
  · intro hf
    simp [visit_classdef, hb, ht, hf]

/-- Witness for C4 at a concrete test-package class that assigns `name`. -/
theorem c4_witness :
    exTest.basenames = ["ConanFile"] ∧
    is_test exTest.file_parts = true ∧
    firstQualifying exTest.body = some (exNameFoo, "foo") ∧
    visit_classdef exTest =
      some { msgid := MsgId.conan_test_no_name,
             node := NodeRef.stmtNode exNameFoo, line := exNameFoo.lineno } :=
  ⟨rfl, by decide, rfl,
    (c4_test_package exTest rfl (by decide)).1 exNameFoo "foo" rfl⟩

/-- Claim C9: the `conan-test-no-name` diagnostic is attached to the
qualifying assignment statement node and carries that statement's line
number, not the class node or the class's line. -/
theorem c9_test_msg_on_assignment (node : ClassDef) (attr : Stmt)
    (value : String)
    (hb : node.basenames = ["ConanFile"])
    (ht : is_test node.file_parts = true)
    (hf : firstQualifying node.body = some (attr, value)) :
    ∃ m, visit_classdef node = some m ∧
      m.msgid = MsgId.conan_test_no_name ∧
      m.node = NodeRef.stmtNode attr ∧
      m.node ≠ NodeRef.classNode ∧
      m.line = attr.lineno := by
  have hv : visit_classdef node =
      some { msgid := MsgId.conan_test_no_name, node := NodeRef.stmtNode attr,
             line := attr.lineno } := by
    simp [visit_classdef, hb, ht, hf]
  exact ⟨_, hv, rfl, rfl, by simp, rfl⟩

/-- Witness for C9 at a concrete test-package class. -/
theorem c9_witness :
    ∃ m, visit_classdef exTest = some m ∧
      m.msgid = MsgId.conan_test_no_name ∧
      m.node = NodeRef.stmtNode exNameFoo ∧
      m.node ≠ NodeRef.classNode ∧
      m.line = exNameFoo.lineno :=
  c9_test_msg_on_assignment exTest exNameFoo "foo" rfl (by decide) rfl

/-- Counterexample to claim C6: the claim says `is_test` holds for every
file path whose final directory component is `test_package`, regardless of
the file name; but the code's patterns are `test_package/*.py` and
`test_v1_package/*.py`, so a file named `conanfile` (no `.py` suffix) in a
`test_package` directory satisfies the claim's predicate while the
checker's `is_test` is false. -/
theorem c6_counterexample :
    is_test_claimed ["recipes", "foo", "all", "test_package", "conanfile"] =
      true ∧
    is_test ["recipes", "foo", "all", "test_package", "conanfile"] = false := by
  decide

/-- Claim C6 (amended): `is_test` is true if and only if the path matches
`test_package/*.py` or `test_v1_package/*.py`: its final directory
component is `test_package` or `test_v1_package` AND its file name
fnmatches `*.py`.  The predicate is a pure path-pattern test. -/
theorem c6_is_test_characterization (parts : List String) :
    is_test parts = true ↔
      ∃ fileName dir rest, parts.reverse = fileName :: dir :: rest ∧
        (dir = "test_package" ∨ dir = "test_v1_package") ∧
        matchStarPy fileName = true := by
  unfold is_test pathMatchDirPy
  cases hrev : parts.reverse with
  | nil => simp
  | cons f t =>
    cases t with
    | nil => simp
    | cons d rest =>
      simp only [Bool.or_eq_true, Bool.and_eq_true, beq_iff_eq]
      constructor
      · rintro (⟨hd, hf⟩ | ⟨hd, hf⟩) <;>
          exact ⟨f, d, rest, rfl, by simp [hd], hf⟩
      · rintro ⟨fn, dir, r, heq, hdir, hf⟩
        obtain ⟨rfl, rfl, rfl⟩ : f = fn ∧ d = dir ∧ rest = r := by
          injection heq with h1 h2
          injection h2 with h2a h2b
          exact ⟨h1, h2a, h2b⟩
        rcases hdir with rfl | rfl
        · exact Or.inl ⟨rfl, hf⟩
        · exact Or.inr ⟨rfl, hf⟩

/-- Claim C7: the body scan is a short-circuit linear scan in source order:
with a (possibly empty) prefix of non-qualifying statements followed by a
qualifying one, the first qualifying statement is the one found, and the
visit result is unchanged by whatever statements follow it — in particular
any later re-assignment of `name` is irrelevant. -/
theorem c7_first_qualifying_wins (node : ClassDef) (pre post : List Stmt)
    (attr : Stmt) (v : String)
    (hbody : node.body = pre ++ attr :: post)
    (hpre : ∀ s ∈ pre, qualifies s = none)
    (hq : qualifies attr = some v) :
    firstQualifying node.body = some (attr, v) ∧
    ∀ post2 : List Stmt,
      visit_classdef { node with body := pre ++ attr :: post2 } =
        visit_classdef node := by
  have h1 : ∀ l : List Stmt,
      firstQualifying (pre ++ attr :: l) = some (attr, v) := by
    intro l
    rw [firstQualifying_append_of_none (attr :: l) hpre]
    simp [firstQualifying, hq]
  refine ⟨by rw [hbody]; exact h1 post, ?_⟩
  intro post2
  exact visit_classdef_congr node (pre ++ attr :: post2)
    (by rw [h1 post2, hbody, h1 post])

/-- Witness for C7 at a concrete body: a non-qualifying statement, then a
qualifying `name = BAR`, then a later `name = "foo"` that is ignored. -/
theorem c7_witness :
    exScan.body = [exOther] ++ exNameBar :: [exNameFoo] ∧
    (∀ s ∈ [exOther], qualifies s = none) ∧
    qualifies exNameBar = some "BAR" ∧
    firstQualifying exScan.body = some (exNameBar, "BAR") ∧
    visit_classdef { exScan with body := [exOther] ++ exNameBar :: [] } =
      visit_classdef exScan :=
  ⟨rfl, by decide, rfl,
    (c7_first_qualifying_wins exScan [exOther] [exNameFoo] exNameBar "BAR" rfl
      (by decide) rfl).1,
    (c7_first_qualifying_wins exScan [exOther] [exNameFoo] exNameBar "BAR" rfl
      (by decide) rfl).2 []⟩

/-- Claim C8: malformed statement shapes — a child count other than two, a
first child that is not an assignment-target name node, or a second child
that is not a literal constant — never qualify, and prepending such a
statement to any body leaves the visit result unchanged (the checker
degrades to "no violation found" instead of failing; the embedding is a
total function, so no visit can raise). -/
theorem c8_malformed_never_qualifies (node : ClassDef) (attr : Stmt)
    (h : attr.children.length ≠ 2 ∨
         (∀ n, attr.children.head? ≠ some (Child.assignName n)) ∨
         (∀ v, attr.children.get? 1 ≠ some (Child.const v))) :
    qualifies attr = none ∧
    visit_classdef { node with body := attr :: node.body } =
      visit_classdef node := by
  have hq : qualifies attr = none := by
    cases hqq : qualifies attr with
    | none => rfl
    | some v =>
      have hsh := qualifies_eq_some hqq
      exfalso
      rcases h with h | h | h
      · exact h (by rw [hsh]; rfl)
      · exact h "name" (by rw [hsh]; rfl)
      · exact h v (by rw [hsh]; rfl)
  exact ⟨hq, visit_classdef_congr node (attr :: node.body)
    (by simp [firstQualifying, hq])⟩

/-- Witness for C8 at a concrete malformed statement with one child. -/
theorem c8_witness :
    (exMalformed.children.length ≠ 2 ∨
     (∀ n, exMalformed.children.head? ≠ some (Child.assignName n)) ∨
     (∀ v, exMalformed.children.get? 1 ≠ some (Child.const v))) ∧
    qualifies exMalformed = none ∧
    visit_classdef { exBad with body := exMalformed :: exBad.body } =
      visit_classdef exBad :=
  ⟨Or.inl (by decide),
   (c8_malformed_never_qualifies exBad exMalformed (Or.inl (by decide))).1,
   (c8_malformed_never_qualifies exBad exMalformed (Or.inl (by decide))).2⟩

end CheckPackageName

namespace TkRecipe

/-- Claim C10: in the tk recipe, for every configuration, `build()`
performs only `apply_conandata_patches` and then raises `AttributeError`
on `self._get_configure_folder` — a name defined nowhere in `TkConan`
(only `_get_configure_dir` is) — so no build tool is ever invoked; and
`package()` raises `AttributeError` on the undefined
`self._source_subfolder` before performing any effect, so the package step
can never complete either. -/
theorem c10_tk_build_and_package_always_fail (cfg : TkConfig) :
    build_run cfg =
      ([TkEvent.applyConandataPatches],
        some "AttributeError: _get_configure_folder") ∧
    package_run cfg = ([], some "AttributeError: _source_subfolder") ∧
    "_get_configure_folder" ∉ knownNames ∧
    "_get_configure_dir" ∈ TkConan_definedNames ∧
    "_source_subfolder" ∉ knownNames :=
  ⟨rfl, rfl, by decide, by decide, by decide⟩

end TkRecipe
